import Mathlib

/-!
Verification of the Emergence Explorer chat core (`src/index.tsx`).

The embedding models JS strings as lists of UTF-16 code points (`List Nat`),
conversation turns and the DOM-backed transcript as explicit lists, and the
global `appState` as a structure threaded through the event handlers.
-/

set_option autoImplicit false

namespace Emergence

/-- Convert a Lean string literal to the code-point list that models the
corresponding JS string (all characters used here lie in the BMP, so code
points coincide with UTF-16 code units). -/
def str (s : String) : List Nat :=
  s.toList.map Char.toNat

/-- JS `String.prototype.toLowerCase` on a single code point, modelled for the
alphabet this program manipulates: ASCII letters `A`-`Z` and the German
capitals `Ä`, `Ö`, `Ü`; every other code point is left fixed (as JS does for
the remaining characters occurring in the keyword lists). -/
def toLowerCode (n : Nat) : Nat :=
  if 65 ≤ n ∧ n ≤ 90 then n + 32
  else if n = 196 then 228
  else if n = 214 then 246
  else if n = 220 then 252
  else n

/-- Model of `message.toLowerCase()` (line 170 of `src/index.tsx`). -/
def jsToLowerCase (l : List Nat) : List Nat :=
  l.map toLowerCode

/-- Count of matches of `lowerMessage.match(new RegExp(keyword, gi))`:
the keywords contain no regex metacharacters, so a global regex match counts
non-overlapping occurrences of `pat` scanning left to right, advancing past
each match.  `skip` is the number of positions still covered by the previous
match. -/
def countOccGo (pat : List Nat) : List Nat → Nat → Nat
  | [], _ => 0
  | _ :: rest, Nat.succ skip => countOccGo pat rest skip
  | c :: rest, 0 =>
    if pat.isPrefixOf (c :: rest) then
      1 + countOccGo pat rest (pat.length - 1)
    else
      countOccGo pat rest 0

/-- Number of regex-global (non-overlapping, left-to-right) matches of `pat`
in `l`, i.e. `(l.match(new RegExp(pat, gi)) || []).length` for a
metacharacter-free, already-lowercased pattern. -/
def countOcc (pat l : List Nat) : Nat :=
  countOccGo pat l 0

/-- The `emergenceKeywords` array (lines 172-177 of `src/index.tsx`). -/
def emergenceKeywords : List (List Nat) :=
  [str "überraschend", str "unerwartet", str "emergent", str "plötzlich",
   str "spontan", str "kreativ", str "innovation", str "neu", str "anders",
   str "durchbruch", str "inspiration", str "verbindung", str "zusammenhang",
   str "verknüpfung", str "kombination", str "selbstreflexion",
   str "meta-ebene", str "paradox", str "philosophie"]

/-- The `surpriseWords` array (line 185 of `src/index.tsx`). -/
def surpriseWords : List (List Nat) :=
  [str "überrasch", str "wow", str "verblüff", str "erstaunlich", str "!"]

/-- The `emergencePoints` accumulation (lines 179-183):
`emergenceKeywords.forEach(keyword => { emergencePoints += matches * 15 })`
over the already-lowercased message. -/
def emergencePoints (lowerMessage : List Nat) : Nat :=
  emergenceKeywords.foldl (fun acc keyword => acc + countOcc keyword lowerMessage * 15) 0

/-- The `surprises` reduction (lines 186-188):
`surpriseWords.reduce((count, word) => count + matches, 0)`. -/
def surprises (lowerMessage : List Nat) : Nat :=
  surpriseWords.foldl (fun count word => count + countOcc word lowerMessage) 0

/-- The score computed by `analyzeMessage` (lines 169-191):
`Math.min(emergencePoints + (surprises * 10), 100)` over the lowercased
message. -/
def analyzeScore (message : List Nat) : Nat :=
  let lowerMessage := jsToLowerCase message
  min (emergencePoints lowerMessage + surprises lowerMessage * 10) 100

/-- One entry of `appState.conversationHistory`:
`{ role: string, content: string }`. -/
structure ChatMsg where
  role : List Nat
  content : List Nat
deriving DecidableEq

/-- The CSS class / `type` argument of `addMessage` (`human | ai | system`),
plus the `thinking` class used by `showThinkingMessage`. -/
inductive DisplayKind where
  | human
  | ai
  | system
  | thinking
deriving DecidableEq

/-- One message `div` appended to the `#chat-messages` container. -/
structure DisplayMsg where
  kind : DisplayKind
  content : List Nat
deriving DecidableEq

/-- The global `appState` (lines 11-17), restricted to the fields the core
logic reads or writes, together with `displayed`, which models the sequence
of message `div`s in the `#chat-messages` container (the DOM state the
handlers mutate through `addMessage` / `showThinkingMessage` /
`hideThinkingMessage`).  `startTime` / `sessionTime` only feed the timer
display and are omitted. -/
structure AppState where
  emergenceScore : Nat
  isLoading : Bool
  conversationHistory : List ChatMsg
  displayed : List DisplayMsg
deriving DecidableEq

/-- Model of `addMessage(content, type)` (lines 123-131): appends one message `div`
to the chat container.  (The `\n` → `<br>` rewrite is HTML rendering and is
not modelled; the stored content is the argument text.) -/
def addMessage (s : AppState) (content : List Nat) (kind : DisplayKind) : AppState :=
  { s with displayed := s.displayed ++ [⟨kind, content⟩] }

/-- Model of `setLoading(isLoading)` (lines 155-166); the DOM class toggles are
rendering only. -/
def setLoading (s : AppState) (isLoading : Bool) : AppState :=
  { s with isLoading := isLoading }

/-- Model of `analyzeMessage(message)` (lines 169-194): overwrites
`appState.emergenceScore` with the freshly computed score (the comment in the
source: "Reset score for each message analysis").  `updateAnalytics` only
toggles the indicator CSS class. -/
def analyzeMessage (s : AppState) (message : List Nat) : AppState :=
  { s with emergenceScore := analyzeScore message }

/-- Model of `showThinkingMessage()` (lines 134-145): appends the thinking
`div` (the rendered spinner markup inside the `div` is presentation). -/
def showThinkingMessage (s : AppState) : AppState :=
  addMessage s (str "Gemini denkt nach...") DisplayKind.thinking

/-- Model of `hideThinkingMessage()` (lines 147-152): removes the (unique) element
with id `thinking-message`, modelled as removing the first thinking-kind
entry. -/
def removeThinking : List DisplayMsg → List DisplayMsg
  | [] => []
  | d :: rest =>
    if d.kind = DisplayKind.thinking then rest else d :: removeThinking rest

def hideThinkingMessage (s : AppState) : AppState :=
  { s with displayed := removeThinking s.displayed }

/-- Model of `arr.slice(-n)` for `n ≤ arr.length`: the last `n` elements. -/
def jsSliceLast (n : Nat) (l : List ChatMsg) : List ChatMsg :=
  l.drop (l.length - n)

/-- The trim step of `getAIResponse` (lines 109-111):
`if (history.length > 20) history = history.slice(-18)`. -/
def trimHistory (h : List ChatMsg) : List ChatMsg :=
  if h.length > 20 then jsSliceLast 18 h else h

/-- One append-trim cycle: push a turn, then run the trim step. -/
def appendAndTrim (h : List ChatMsg) (m : ChatMsg) : List ChatMsg :=
  trimHistory (h ++ [m])

/-- The system error message added by the `catch` in `getAIResponse`
(line 117). -/
def apiErrorText (e : List Nat) : List Nat :=
  str "❌ Fehler bei der Gemini API: " ++ e

/-- The system error message added by the `catch` in `sendMessage`
(line 74). -/
def outerErrorText (e : List Nat) : List Nat :=
  str "❌ Fehler: " ++ e ++ str "\n\nBitte versuche es später nochmal."

/-- JS whitespace for `String.prototype.trim` (tab, line terminators, space,
no-break space, BOM; further exotic space code points are not used by this
program). -/
def isJsWhitespace (n : Nat) : Bool :=
  n = 9 || n = 10 || n = 11 || n = 12 || n = 13 || n = 32 ||
  n = 160 || n = 8232 || n = 8233 || n = 65279

/-- Model of `input.value.trim()` (line 57): strip leading and trailing
whitespace. -/
def jsTrim (l : List Nat) : List Nat :=
  ((l.dropWhile isJsWhitespace).reverse.dropWhile isJsWhitespace).reverse

/-- Model of `getAIResponse()` (lines 88-120).  The Gemini call is the external
collaborator; its outcome is the parameter `resp` (`.ok reply` or
`.error message`).  Returns the new state and `some e` when the handler
rethrows the error `e` (line 118), `none` on success.  On success: push the
assistant turn, trim, display the reply, analyze it.  On failure: display a
system error and rethrow; the history is untouched. -/
def getAIResponse (s : AppState) (resp : Except (List Nat) (List Nat)) :
    AppState × Option (List Nat) :=
  match resp with
  | Except.ok aiMessage =>
    let s1 := { s with conversationHistory :=
                  s.conversationHistory ++ [ChatMsg.mk (str "assistant") aiMessage] }
    let s2 := { s1 with conversationHistory := trimHistory s1.conversationHistory }
    let s3 := addMessage s2 aiMessage DisplayKind.ai
    (analyzeMessage s3 aiMessage, none)
  | Except.error e =>
    (addMessage s (apiErrorText e) DisplayKind.system, some e)

/-- Model of `sendMessage()` (lines 55-79).  `inputValue` is the textarea content and
`resp` the outcome of the AI-collaborator call.  Guard: return unchanged when
the trimmed message is empty or a request is in flight.  Otherwise: display
the user message, push the user turn, set loading, show the thinking
indicator, run `getAIResponse`; a rethrown error is caught here and displayed
as a second system message; finally clear loading and hide the thinking
indicator. -/
def sendMessage (s : AppState) (inputValue : List Nat)
    (resp : Except (List Nat) (List Nat)) : AppState :=
  let message := jsTrim inputValue
  if message.isEmpty || s.isLoading then s
  else
    let s1 := addMessage s message DisplayKind.human
    let s2 := { s1 with conversationHistory :=
                  s1.conversationHistory ++ [ChatMsg.mk (str "user") message] }
    let s3 := setLoading s2 true
    let s4 := showThinkingMessage s3
    let r := getAIResponse s4 resp
    let s5 := match r.2 with
      | none => r.1
      | some e => addMessage r.1 (outerErrorText e) DisplayKind.system
    let s6 := setLoading s5 false
    hideThinkingMessage s6

/-- Number of system-kind entries in the displayed transcript. -/
def countSystem (d : List DisplayMsg) : Nat :=
  (d.filter (fun m => m.kind = DisplayKind.system)).length

/-! ### Spec-side reformulations of the scorer (for the refinement claims) -/

/-- Spec phrasing: the total number of occurrences of the emergence keywords
as substrings of the lowercased text, summed across keywords. -/
def totalKeywordOccurrences (text : List Nat) : Nat :=
  (emergenceKeywords.map (fun kw => countOcc kw (jsToLowerCase text))).sum

/-- Spec phrasing: the total number of occurrences of the five surprise
markers in the lowercased text. -/
def totalSurpriseOccurrences (text : List Nat) : Nat :=
  (surpriseWords.map (fun w => countOcc w (jsToLowerCase text))).sum

/-- Spec phrasing: the score as a function of the two occurrence totals,
`min(15 * keywordTotal + surpriseTotal * 10, 100)`. -/
def scoreFromCounts (k s : Nat) : Nat :=
  min (15 * k + s * 10) 100

/-! ### Helper lemmas -/

theorem foldl_keyword_points (l : List (List Nat)) (t : List Nat) (a : Nat) :
    l.foldl (fun acc keyword => acc + countOcc keyword t * 15) a
      = a + 15 * (l.map (fun kw => countOcc kw t)).sum := by
  induction l generalizing a with
  | nil => simp
  | cons x xs ih => simp [List.foldl_cons, ih]; ring

theorem foldl_surprise_count (l : List (List Nat)) (t : List Nat) (a : Nat) :
    l.foldl (fun count word => count + countOcc word t) a
      = a + (l.map (fun w => countOcc w t)).sum := by
  induction l generalizing a with
  | nil => simp
  | cons x xs ih => simp [List.foldl_cons, ih]; ring

theorem analyzeScore_eq_scoreFromCounts (text : List Nat) :
    analyzeScore text
      = scoreFromCounts (totalKeywordOccurrences text) (totalSurpriseOccurrences text) := by
  simp only [analyzeScore, scoreFromCounts, emergencePoints, surprises,
    foldl_keyword_points, foldl_surprise_count,
    totalKeywordOccurrences, totalSurpriseOccurrences, Nat.zero_add]

theorem appendAndTrim_length_le (h : List ChatMsg) (m : ChatMsg) :
    (appendAndTrim h m).length ≤ 20 := by
  simp only [appendAndTrim, trimHistory, jsSliceLast]
  split
  · rw [List.length_drop]
    omega
  · omega

/-! ### Claims -/

/-- C1: for every input text, the score computed by `analyzeMessage` equals
`min(15 * totalKeywordOccurrences + totalSurpriseOccurrences * 10, 100)`,
where the keyword total counts regex-global non-overlapping matches per
keyword summed across keywords and the surprise total counts the five fixed
markers; consequently the score never exceeds 100 (and, being a `Nat`, is
never below 0), so it lies in `[0, 100]`. -/
theorem c1_score_formula (text : List Nat) :
    analyzeScore text
        = min (15 * totalKeywordOccurrences text + totalSurpriseOccurrences text * 10) 100 ∧
      analyzeScore text ≤ 100 := by
  refine ⟨analyzeScore_eq_scoreFromCounts text, ?_⟩
  rw [analyzeScore_eq_scoreFromCounts text]
  exact Nat.min_le_right _ _

/-- C2: for every starting history and every nonempty sequence of appended
turns, with the trim step run after every append, the history length is at
most 20 immediately after each append-trim cycle (stated for the cycle that
ends the sequence; since the starting history is universally quantified this
covers every intermediate cycle as well). -/
theorem c2_history_length_bounded (h0 : List ChatMsg) (ms : List ChatMsg) (m : ChatMsg) :
    (List.foldl appendAndTrim h0 (ms ++ [m])).length ≤ 20 := by
  rw [List.foldl_append]
  exact appendAndTrim_length_le _ _

/-- C3: whenever the history length exceeds 20 (in particular at length 21),
the trim step replaces it with exactly its last 18 turns — the result has
length 18, equals the last-18 suffix in original order, and the dropped
elements are precisely the older prefix. -/
theorem c3_trim_keeps_last_eighteen (h : List ChatMsg) (hlen : h.length > 20) :
    (trimHistory h).length = 18 ∧
    trimHistory h = (h.reverse.take 18).reverse ∧
    h.take (h.length - 18) ++ trimHistory h = h := by
  have ht : trimHistory h = h.drop (h.length - 18) := by
    simp [trimHistory, jsSliceLast, hlen]
  refine ⟨?_, ?_, ?_⟩
  · rw [ht, List.length_drop]
    omega
  · rw [ht]
    have hr := List.rtake_eq_reverse_take_reverse (l := h) (n := 18)
    simpa [List.rtake] using hr
  · rw [ht]
    exact List.take_append_drop _ _

/-- A concrete 21-turn history for the C3 witness. -/
def cUser : ChatMsg := ChatMsg.mk (str "user") (str "hi")

/-- Witness for C3 at a concrete history of length 21. -/
theorem c3_trim_keeps_last_eighteen_witness :
    (trimHistory (List.replicate 21 cUser)).length = 18 ∧
    trimHistory (List.replicate 21 cUser)
      = ((List.replicate 21 cUser).reverse.take 18).reverse ∧
    (List.replicate 21 cUser).take ((List.replicate 21 cUser).length - 18)
        ++ trimHistory (List.replicate 21 cUser) = List.replicate 21 cUser :=
  c3_trim_keeps_last_eighteen (List.replicate 21 cUser) (by decide)

/-- Idempotence of the modelled `toLowerCase` on one code point. -/
theorem toLowerCode_idem (n : Nat) : toLowerCode (toLowerCode n) = toLowerCode n := by
  simp only [toLowerCode]
  split_ifs <;> omega

theorem jsToLowerCase_idem (l : List Nat) :
    jsToLowerCase (jsToLowerCase l) = jsToLowerCase l := by
  simp only [jsToLowerCase, List.map_map]
  exact List.map_congr_left fun a _ => toLowerCode_idem a

/-- If `pat` is not an infix of `l`, the regex-global match count is zero,
whatever the skip state. -/
theorem countOccGo_eq_zero_of_not_infix (pat : List Nat) :
    ∀ (l : List Nat) (skip : Nat), ¬ pat <:+: l → countOccGo pat l skip = 0 := by
  intro l
  induction l with
  | nil => intro skip _; rfl
  | cons c rest ih =>
    intro skip hinf
    match skip with
    | Nat.succ k => exact ih k fun h => hinf ( List.infix_cons h)
    | 0 =>
      by_cases hp : pat.isPrefixOf (c :: rest) = true
      · exact absurd ( List.IsPrefix.isInfix ( List.isPrefixOf_iff_prefix.mp hp)) hinf
      · simp only [countOccGo, hp, if_false, Bool.false_eq_true]
        exact ih 0 fun h => hinf ( List.infix_cons h)

theorem countOcc_eq_zero_of_not_infix (pat l : List Nat)
    (hinf : ¬ pat <:+: l) : countOcc pat l = 0 :=
  countOccGo_eq_zero_of_not_infix pat l 0 hinf

/-- The saturating input used for C7: seven concatenated copies of the
keyword `emergent` (7 · 15 = 105 points, clamped to 100). -/
def saturatingText : List Nat :=
  List.flatten (List.replicate 7 (str "emergent"))

/-- C7: the score is the clamped function `scoreFromCounts` of the keyword
and surprise occurrence totals; that function is monotone non-decreasing in
the keyword total; some input (seven repeated keyword matches) saturates the
score to exactly 100; and no input scores above 100. -/
theorem c7_monotone_and_saturates :
    (∀ text, analyzeScore text
        = scoreFromCounts (totalKeywordOccurrences text) (totalSurpriseOccurrences text)) ∧
    (∀ k₁ k₂ s : Nat, k₁ ≤ k₂ → scoreFromCounts k₁ s ≤ scoreFromCounts k₂ s) ∧
    analyzeScore saturatingText = 100 ∧
    (∀ text, analyzeScore text ≤ 100) := by
  refine ⟨analyzeScore_eq_scoreFromCounts, ?_, by decide, ?_⟩
  · intro k₁ k₂ s hk
    unfold scoreFromCounts
    exact min_le_min (by omega) le_rfl
  · intro text
    rw [analyzeScore_eq_scoreFromCounts]
    exact Nat.min_le_right _ _

/-- Witness for C7: monotonicity applied at concrete totals `1 ≤ 2`, and the
concrete saturating input. -/
theorem c7_monotone_and_saturates_witness :
    scoreFromCounts 1 0 ≤ scoreFromCounts 2 0 ∧ analyzeScore saturatingText = 100 :=
  ⟨c7_monotone_and_saturates.2.1 1 2 0 (by decide),
   c7_monotone_and_saturates.2.2.1⟩

/-- C8: the scorer is case-insensitive — every text scores the same as its
lowercased form, and in particular `"EMERGENT"` scores the same as
`"emergent"`. -/
theorem c8_case_insensitive :
    (∀ text, analyzeScore text = analyzeScore (jsToLowerCase text)) ∧
    analyzeScore (str "EMERGENT") = analyzeScore (str "emergent") := by
  constructor
  · intro text
    simp only [analyzeScore, jsToLowerCase_idem]
  · decide

/-- C9: the empty text scores 0, and for any text containing (up to
lowercasing) no emergence keyword and no surprise marker as a substring,
`analyzeMessage` overwrites the stored score with 0 regardless of its
previous value. -/
theorem c9_no_match_scores_zero :
    analyzeScore (str "") = 0 ∧
    ∀ (s : AppState) (text : List Nat),
      (∀ w ∈ emergenceKeywords ++ surpriseWords, ¬ w <:+: jsToLowerCase text) →
      (analyzeMessage s text).emergenceScore = 0 := by
  refine ⟨by decide, ?_⟩
  intro s text hno
  have hproj : (analyzeMessage s text).emergenceScore = analyzeScore text := rfl
  have hk : totalKeywordOccurrences text = 0 := by
    unfold totalKeywordOccurrences
    apply List.sum_eq_zero
    intro x hx
    rw [List.mem_map] at hx
    obtain ⟨kw, hkwmem, rfl⟩ := hx
    exact countOcc_eq_zero_of_not_infix kw _
      (hno kw (List.mem_append_left _ hkwmem))
  have hs : totalSurpriseOccurrences text = 0 := by
    unfold totalSurpriseOccurrences
    apply List.sum_eq_zero
    intro x hx
    rw [List.mem_map] at hx
    obtain ⟨w, hwmem, rfl⟩ := hx
    exact countOcc_eq_zero_of_not_infix w _
      (hno w (List.mem_append_right _ hwmem))
  rw [hproj, analyzeScore_eq_scoreFromCounts, hk, hs]
  rfl

/-- Witness for C9 at the keyword-free text `"hallo"` and a state whose
previous score is 77. -/
theorem c9_no_match_scores_zero_witness :
    analyzeScore (str "") = 0 ∧
    (analyzeMessage (AppState.mk 77 false [] []) (str "hallo")).emergenceScore = 0 :=
  ⟨c9_no_match_scores_zero.1,
   c9_no_match_scores_zero.2 (AppState.mk 77 false [] []) (str "hallo") (by decide)⟩

/-- C10: the keyword list and the surprise-marker list overlap on
`überraschend` / `überrasch`: the single-word text `"überraschend"` is
counted once as an emergence keyword (15 points) and once as a surprise
marker (10 points), scoring 25 rather than 15. -/
theorem c10_keyword_marker_overlap :
    countOcc (str "überraschend") (jsToLowerCase (str "überraschend")) = 1 ∧
    countOcc (str "überrasch") (jsToLowerCase (str "überraschend")) = 1 ∧
    analyzeScore (str "überraschend") = 25 ∧
    analyzeScore (str "überraschend") ≠ 15 := by
  refine ⟨by decide, by decide, by decide, by decide⟩

/-- Removing the thinking indicator never changes the number of system
entries in the transcript. -/
theorem countSystem_removeThinking (d : List DisplayMsg) :
    countSystem (removeThinking d) = countSystem d := by
  induction d with
  | nil => rfl
  | cons x rest ih =>
    by_cases hx : x.kind = DisplayKind.thinking
    · simp [removeThinking, hx, countSystem, List.filter_cons]
    · simp only [removeThinking, if_neg hx, countSystem, List.filter_cons] at ih ⊢
      split <;> simp [ih]

/-- The displayed transcript produced by a failed send: the user message, the
thinking indicator (later removed), and the two system error messages. -/
theorem sendMessage_error_displayed (s : AppState) (input e : List Nat)
    (h1 : (jsTrim input).isEmpty = false) (h2 : s.isLoading = false) :
    (sendMessage s input (Except.error e)).displayed
      = removeThinking ((((s.displayed
          ++ [DisplayMsg.mk DisplayKind.human (jsTrim input)])
          ++ [DisplayMsg.mk DisplayKind.thinking (str "Gemini denkt nach...")])
          ++ [DisplayMsg.mk DisplayKind.system (apiErrorText e)])
          ++ [DisplayMsg.mk DisplayKind.system (outerErrorText e)]) := by
  simp [sendMessage, h1, h2, getAIResponse, addMessage, setLoading,
    showThinkingMessage, hideThinkingMessage]

/-- C4: when a user turn has been appended and the AI-collaborator call then
fails, the model-bound history is exactly the previous history plus the one
user turn; in particular its last element is that user turn, so no
assistant or error turn was appended for the failed attempt. -/
theorem c4_failed_call_leaves_history (s : AppState) (input e : List Nat)
    (h1 : (jsTrim input).isEmpty = false) (h2 : s.isLoading = false) :
    (sendMessage s input (Except.error e)).conversationHistory
        = s.conversationHistory ++ [ChatMsg.mk (str "user") (jsTrim input)] ∧
    (sendMessage s input (Except.error e)).conversationHistory.getLast?
        = some (ChatMsg.mk (str "user") (jsTrim input)) := by
  have hist : (sendMessage s input (Except.error e)).conversationHistory
      = s.conversationHistory ++ [ChatMsg.mk (str "user") (jsTrim input)] := by
    simp [sendMessage, h1, h2, getAIResponse, addMessage, setLoading,
      showThinkingMessage, hideThinkingMessage]
  refine ⟨hist, ?_⟩
  rw [hist]
  simp

/-- Witness for C4 at a concrete fresh state, input `"Hi"` and error
`"boom"`. -/
theorem c4_failed_call_leaves_history_witness :
    (sendMessage (AppState.mk 0 false [] []) (str "Hi")
          (Except.error (str "boom"))).conversationHistory
        = (AppState.mk 0 false [] []).conversationHistory
            ++ [ChatMsg.mk (str "user") (jsTrim (str "Hi"))] ∧
    (sendMessage (AppState.mk 0 false [] []) (str "Hi")
          (Except.error (str "boom"))).conversationHistory.getLast?
        = some (ChatMsg.mk (str "user") (jsTrim (str "Hi"))) :=
  c4_failed_call_leaves_history (AppState.mk 0 false [] []) (str "Hi")
    (str "boom") (by decide) rfl

/-- Counterexample to C5 as stated: starting from the fresh state with an
empty transcript, the failed call `"boom"` on input `"Hi"` does not add
exactly one system entry (it adds two: line 117 and line 74 of
`src/index.tsx` each append one). -/
theorem c5_counterexample_two_not_one :
    countSystem (sendMessage (AppState.mk 0 false [] []) (str "Hi")
        (Except.error (str "boom"))).displayed
      ≠ countSystem (AppState.mk 0 false [] []).displayed + 1 := by
  decide

/-- C5 (amended): every failed AI-collaborator call that passes the send
guard adds exactly two system error entries to the displayed transcript —
one from the `catch` in `getAIResponse` (line 117) and one from the `catch`
in `sendMessage` (line 74), which receives the rethrown error. -/
theorem c5_failed_call_adds_two_system_entries (s : AppState) (input e : List Nat)
    (h1 : (jsTrim input).isEmpty = false) (h2 : s.isLoading = false) :
    countSystem (sendMessage s input (Except.error e)).displayed
      = countSystem s.displayed + 2 := by
  rw [sendMessage_error_displayed s input e h1 h2, countSystem_removeThinking]
  simp [countSystem, List.filter_append]

/-- Witness for the amended C5 at a concrete fresh state. -/
theorem c5_failed_call_adds_two_system_entries_witness :
    countSystem (sendMessage (AppState.mk 0 false [] []) (str "Hi")
        (Except.error (str "boom"))).displayed
      = countSystem (AppState.mk 0 false [] []).displayed + 2 :=
  c5_failed_call_adds_two_system_entries (AppState.mk 0 false [] []) (str "Hi")
    (str "boom") (by decide) rfl

/-- C6: every invocation of `sendMessage` that passes the initial guard
(non-empty trimmed message, not already loading) ends with the loading flag
cleared, whatever the outcome of the AI-collaborator call. -/
theorem c6_loading_cleared (s : AppState) (input : List Nat)
    (resp : Except (List Nat) (List Nat))
    (h1 : (jsTrim input).isEmpty = false) (h2 : s.isLoading = false) :
    (sendMessage s input resp).isLoading = false := by
  cases resp <;>
    simp [sendMessage, h1, h2, getAIResponse, addMessage, setLoading,
      showThinkingMessage, hideThinkingMessage, analyzeMessage]

/-- Witness for C6 on both the success and the failure path at a concrete
fresh state. -/
theorem c6_loading_cleared_witness :
    (sendMessage (AppState.mk 0 false [] []) (str "Hi")
        (Except.ok (str "Gut."))).isLoading = false ∧
    (sendMessage (AppState.mk 0 false [] []) (str "Hi")
        (Except.error (str "boom"))).isLoading = false :=
  ⟨c6_loading_cleared (AppState.mk 0 false [] []) (str "Hi")
      (Except.ok (str "Gut.")) (by decide) rfl,
   c6_loading_cleared (AppState.mk 0 false [] []) (str "Hi")
      (Except.error (str "boom")) (by decide) rfl⟩

end Emergence
